import Mathlib

/-! # A REST resource over an in-memory user store

Shallow embedding of `restful-user-resource.go`: the `User` record, the
`UserResource` with its `users` map, the five handlers (`findAllUsers`,
`findUser`, `updateUser`, `createUser`, `removeUser`) and the API description
contributor `enrichSwaggerObject`.

Handlers are state passing: a handler takes the resource, the request and the
response it is handed, and gives back the resource and the response after it
ran.  The Go map `map[string]User` is an association list with distinct keys.
-/

namespace UserService

/-! ## Data model -/

/-- A user record: `type User struct { ID string; Name string; Age int }`. -/
structure User where
  ID : String
  Name : String
  Age : Int
  deriving DecidableEq

/-- The zero value of `User`, which Go gives for `new(User)`, for `User{}` and
for indexing a map at a key it does not hold. -/
def User.zero : User := { ID := "", Name := "", Age := 0 }

/-- The Go map `map[string]User`: finitely many entries, no key twice. -/
abbrev Store := AList (fun _ : String => User)

/-- Go map indexing `users[key]`: the stored value, or the zero value when the
key is absent. -/
def Store.index (users : Store) (key : String) : User :=
  (AList.lookup key users).getD User.zero

/-- Go map assignment `users[key] = usr`: inserts or overwrites. -/
def Store.assign (users : Store) (key : String) (usr : User) : Store :=
  AList.insert key usr users

/-- Go builtin `delete(users, key)`: removes the entry, nothing if absent. -/
def Store.delete (users : Store) (key : String) : Store :=
  AList.erase key users

/-- An order in which `range` may walk the map: Go leaves the order
unspecified, so any arrangement of the entries is admitted. -/
structure RangeOrder (users : Store) where
  visit : List (Sigma fun _ : String => User)
  perm : visit.Perm users.entries

/-- The order in which the entries are kept. -/
def RangeOrder.stored (users : Store) : RangeOrder users :=
  { visit := users.entries, perm := List.Perm.refl _ }

/-- The resource: `type UserResource struct { users map[string]User }`. -/
structure UserResource where
  users : Store
  deriving DecidableEq

/-! ## The HTTP layer (go-restful, net/http) -/

namespace http

/-- Status `http.StatusOK`. -/
def StatusOK : Nat := 200

/-- Status `http.StatusCreated`. -/
def StatusCreated : Nat := 201

/-- Status `http.StatusNotFound`. -/
def StatusNotFound : Nat := 404

/-- Status `http.StatusInternalServerError`. -/
def StatusInternalServerError : Nat := 500

end http

/-- What decoding a request body as a `User` comes to: either the decoder
fails with an error, or it supplies some of the three fields. -/
inductive Body where
  | malformed (err : String)
  | fields (id : Option String) (name : Option String) (age : Option Int)
  deriving DecidableEq

/-- A request, as far as the handlers read it: the path parameters bound by
the route and the body. -/
structure Request where
  pathParameters : String → String
  body : Body

/-- Modelled from the spec: `restful.Request.PathParameter` of the go-restful
library, whose source is not part of the repository.  It looks the name up in
the parameters the route bound; an unbound name gives the empty string. -/
def Request.PathParameter (request : Request) (name : String) : String :=
  request.pathParameters name

/-- Modelled from the spec: `restful.Request.ReadEntity` of the go-restful
library, whose source is not part of the repository.  It decodes the body
onto the record it is given ("merges body onto a record"): a field the body
supplies replaces the field of the record, the other fields stay; a body that
does not parse gives the error. -/
def Request.ReadEntity (request : Request) (usr : User) : Except String User :=
  match request.body with
  | Body.malformed err => Except.error err
  | Body.fields id name age =>
      Except.ok { ID := id.getD usr.ID, Name := name.getD usr.Name, Age := age.getD usr.Age }

/-- What a handler wrote as the response body. -/
inductive Content where
  | user (value : User)
  | users (value : List User)
  | text (message : String)
  deriving DecidableEq

/-- A response: the status header and the body, each `none` until written. -/
structure Response where
  status : Option Nat
  content : Option Content
  deriving DecidableEq

/-- The response a handler is handed: nothing written yet. -/
def Response.fresh : Response := { status := none, content := none }

/-- Modelled from the spec: `restful.Response.WriteHeaderAndEntity` of the
go-restful library: writes the status and the entity as the body. -/
def Response.WriteHeaderAndEntity (_response : Response) (status : Nat) (value : Content) :
    Response :=
  { status := some status, content := some value }

/-- Modelled from the spec: `restful.Response.WriteEntity` of the go-restful
library: writes the entity with status 200. -/
def Response.WriteEntity (response : Response) (value : Content) : Response :=
  response.WriteHeaderAndEntity http.StatusOK value

/-- Modelled from the spec: `restful.Response.WriteErrorString` of the
go-restful library: writes the status and the message as the body. -/
def Response.WriteErrorString (_response : Response) (status : Nat) (message : String) :
    Response :=
  { status := some status, content := some (Content.text message) }

/-- Modelled from the spec: `restful.Response.WriteError` of the go-restful
library: writes the status and the text of the error as the body. -/
def Response.WriteError (response : Response) (status : Nat) (err : String) : Response :=
  response.WriteErrorString status err

/-! ## The handlers -/

/-- Handler `findAllUsers` (GET /users). -/
def UserResource.findAllUsers (u : UserResource) (order : RangeOrder u.users)
    (_request : Request) (response : Response) : UserResource × Response :=
  let list : List User := order.visit.foldl (fun list each => list ++ [each.2]) []
  (u, response.WriteEntity (Content.users list))

/-- Handler `findUser` (GET /users/{user-id}). -/
def UserResource.findUser (u : UserResource) (request : Request) (response : Response) :
    UserResource × Response :=
  let id := request.PathParameter "user-id"
  let usr := u.users.index id
  if usr.ID.utf8ByteSize = 0 then
    (u, response.WriteErrorString http.StatusNotFound "User could not be found.")
  else
    (u, response.WriteEntity (Content.user usr))

/-- Handler `updateUser` (PUT /users/{user-id}). -/
def UserResource.updateUser (u : UserResource) (request : Request) (response : Response) :
    UserResource × Response :=
  let usr := User.zero
  match request.ReadEntity usr with
  | Except.ok usr =>
      ({ users := u.users.assign usr.ID usr }, response.WriteEntity (Content.user usr))
  | Except.error err =>
      (u, response.WriteError http.StatusNotFound err)

/-- Handler `createUser` (POST /users). -/
def UserResource.createUser (u : UserResource) (request : Request) (response : Response) :
    UserResource × Response :=
  let usr : User := { ID := request.PathParameter "user-id", Name := "", Age := 0 }
  match request.ReadEntity usr with
  | Except.ok usr =>
      ({ users := u.users.assign usr.ID usr },
        response.WriteHeaderAndEntity http.StatusCreated (Content.user usr))
  | Except.error err =>
      (u, response.WriteError http.StatusInternalServerError err)

/-- Handler `removeUser` (DELETE /users/{user-id}). -/
def UserResource.removeUser (u : UserResource) (request : Request) (response : Response) :
    UserResource × Response :=
  let id := request.PathParameter "user-id"
  ({ users := u.users.delete id }, response)

/-- The resource `main` starts with: `UserResource{map[string]User{}}`. -/
def main.u : UserResource := { users := ∅ }

/-! ## The API description document (go-openapi/spec)

The types are those of the go-openapi library, whose source is not part of the
repository.  Each is given the fields `enrichSwaggerObject` assigns; further
fields of the library's types, which the struct literals of the source leave
at their zero value, are not modelled.
-/

namespace spec

/-- Modelled from the spec: type `spec.ContactInfo` of the go-openapi library:
contact name, email and URL. -/
structure ContactInfo where
  Name : String
  Email : String
  URL : String
  deriving DecidableEq

/-- Modelled from the spec: type `spec.License` of the go-openapi library:
license name and URL. -/
structure License where
  Name : String
  URL : String
  deriving DecidableEq

/-- Modelled from the spec: type `spec.Info` (with its `InfoProps`) of the
go-openapi library: title, free-text description, contact, license and
version.  `Contact` and `License` are pointers, `none` for nil. -/
structure Info where
  Title : String
  Description : String
  Contact : Option ContactInfo
  License : Option License
  Version : String
  deriving DecidableEq

/-- Modelled from the spec: type `spec.Tag` (with its `TagProps`) of the
go-openapi library: a tag name with its description. -/
structure Tag where
  Name : String
  Description : String
  deriving DecidableEq

/-- Modelled from the spec: type `spec.Swagger` of the go-openapi library: the
API description document.  `Info` is a pointer, `none` for nil; `rest` stands
for every field other than `Info` and `Tags` (paths, definitions, host, ...),
of a type `Rest` left open. -/
structure Swagger (Rest : Type) where
  Info : Option Info
  Tags : List Tag
  rest : Rest

end spec

/-- The contributor `enrichSwaggerObject`: assigns `swo.Info`, then `swo.Tags`. -/
def enrichSwaggerObject {Rest : Type} (swo : spec.Swagger Rest) : spec.Swagger Rest :=
  let swo := { swo with
    Info := some
      { Title := "UserService"
        Description := "Resource for managing Users"
        Contact := some
          { Name := "john"
            Email := "john@doe.rp"
            URL := "http://johndoe.org" }
        License := some
          { Name := "MIT"
            URL := "http://mit.org" }
        Version := "1.0.0" } }
  { swo with
    Tags := [
      { Name := "users"
        Description := "Managing users" }] }

/-! ## Serving a sequence of requests -/

/-- One request routed to a handler.  For `findAllUsers` the call carries the
order in which `range` walks whatever map it meets. -/
inductive Call where
  | findAllUsers (order : (users : Store) → RangeOrder users) (request : Request)
  | findUser (request : Request)
  | updateUser (request : Request)
  | createUser (request : Request)
  | removeUser (request : Request)

/-- Runs the handler a call is routed to. -/
def UserResource.handle (u : UserResource) (call : Call) (response : Response) :
    UserResource × Response :=
  match call with
  | Call.findAllUsers order request => u.findAllUsers (order u.users) request response
  | Call.findUser request => u.findUser request response
  | Call.updateUser request => u.updateUser request response
  | Call.createUser request => u.createUser request response
  | Call.removeUser request => u.removeUser request response

/-- The resource after serving the calls one after the other, each with a
response of its own. -/
def UserResource.serve (u : UserResource) (calls : List Call) : UserResource :=
  calls.foldl (fun u call => (u.handle call Response.fresh).1) u

/-- The key/identifier agreement: every entry is stored under the identifier
field of its record. -/
def UserResource.KeysAreIdentifiers (u : UserResource) : Prop :=
  ∀ (key : String) (usr : User), AList.lookup key u.users = some usr → usr.ID = key

/-! ## Concrete requests -/

namespace Sample

/-- Path parameters of a route that binds `user-id` to `id`. -/
def bound (id : String) : String → String :=
  fun name => if name = "user-id" then id else ""

/-- Path parameters of a route that binds nothing. -/
def unbound : String → String := fun _ => ""

/-- POST /users with body `id 1, name Melissa, age 30`. -/
def postMelissa : Request :=
  { pathParameters := unbound, body := Body.fields (some "1") (some "Melissa") (some 30) }

/-- POST /users with body `name Melissa, age 30`, no identifier. -/
def postNoId : Request :=
  { pathParameters := unbound, body := Body.fields none (some "Melissa") (some 30) }

/-- PUT /users/1 with body `id 1, name Melissa Raspberry, age 31`. -/
def putRaspberry : Request :=
  { pathParameters := bound "1",
    body := Body.fields (some "1") (some "Melissa Raspberry") (some 31) }

/-- PUT /users/1 with body `name Melissa Raspberry, age 31`, no identifier. -/
def putNoId : Request :=
  { pathParameters := bound "1", body := Body.fields none (some "Melissa Raspberry") (some 31) }

/-- POST /users with a body that does not parse. -/
def postGarbage : Request :=
  { pathParameters := unbound, body := Body.malformed "unexpected end of JSON input" }

/-- A request without a body whose route binds `user-id` to `id`
(GET or DELETE /users/id). -/
def onUser (id : String) : Request :=
  { pathParameters := bound id, body := Body.malformed "EOF" }

end Sample

/-! ## Auxiliary facts -/

/-- A string has byte length zero exactly when it is the empty string. -/
theorem utf8ByteSize_eq_zero_iff (s : String) : s.utf8ByteSize = 0 ↔ s = "" := by
  constructor
  · intro h
    cases s with
    | mk cs =>
      cases cs with
      | nil => rfl
      | cons c cs =>
        exfalso
        have hpos := Char.utf8Size_pos c
        simp [String.utf8ByteSize, String.utf8ByteSize.go] at h
        omega
  · intro h
    subst h
    rfl

/-- The loop of `findAllUsers` appends the value of each visited entry. -/
theorem foldl_append_values (visit : List (Sigma fun _ : String => User)) (acc : List User) :
    visit.foldl (fun list each => list ++ [each.2]) acc
      = acc ++ visit.map (fun each => each.2) := by
  induction visit generalizing acc with
  | nil => simp
  | cons e es ih => simp [List.foldl_cons, ih]

/-- What `findUser` does, by the lookup of the identifier. -/
theorem findUser_eq (u : UserResource) (request : Request) (response : Response) :
    u.findUser request response =
      (u, if (u.users.index (request.PathParameter "user-id")).ID = "" then
            { status := some 404, content := some (Content.text "User could not be found.") }
          else
            { status := some 200,
              content := some (Content.user (u.users.index (request.PathParameter "user-id"))) }) := by
  by_cases h : (u.users.index (request.PathParameter "user-id")).ID = ""
  · have hz := (utf8ByteSize_eq_zero_iff _).mpr h
    simp only [UserResource.findUser, if_pos hz, if_pos h]
    rfl
  · have hz : ¬ (u.users.index (request.PathParameter "user-id")).ID.utf8ByteSize = 0 :=
      fun hc => h ((utf8ByteSize_eq_zero_iff _).mp hc)
    simp only [UserResource.findUser, if_neg hz, if_neg h]
    rfl

/-- Indexing a map at the key just assigned gives the assigned record. -/
theorem index_assign_self (users : Store) (key : String) (usr : User) :
    (users.assign key usr).index key = usr := by
  simp [Store.index, Store.assign, AList.lookup_insert]

/-- Indexing a map at the key just deleted gives the zero value. -/
theorem index_delete_self (users : Store) (key : String) :
    (users.delete key).index key = User.zero := by
  simp [Store.index, Store.delete, AList.lookup_erase]

/-- Reading a body that parses onto a seed gives the overlay of its fields. -/
theorem ReadEntity_fields (request : Request) (seed : User)
    (id name : Option String) (age : Option Int)
    (hbody : request.body = Body.fields id name age) :
    request.ReadEntity seed
      = Except.ok { ID := id.getD seed.ID, Name := name.getD seed.Name, Age := age.getD seed.Age } := by
  simp [Request.ReadEntity, hbody]

/-- Reading a body that does not parse gives its error. -/
theorem ReadEntity_malformed (request : Request) (seed : User) (err : String)
    (hbody : request.body = Body.malformed err) :
    request.ReadEntity seed = Except.error err := by
  simp [Request.ReadEntity, hbody]

/-- What `createUser` does on a body that parses into `r`. -/
theorem createUser_ok (u : UserResource) (request : Request) (response : Response) (r : User)
    (hparse : request.ReadEntity
      { ID := request.PathParameter "user-id", Name := "", Age := 0 } = Except.ok r) :
    u.createUser request response
      = ({ users := u.users.assign r.ID r },
          { status := some 201, content := some (Content.user r) }) := by
  simp only [UserResource.createUser, hparse]
  rfl

/-- What `updateUser` does on a body that parses into `r`. -/
theorem updateUser_ok (u : UserResource) (request : Request) (response : Response) (r : User)
    (hparse : request.ReadEntity User.zero = Except.ok r) :
    u.updateUser request response
      = ({ users := u.users.assign r.ID r },
          { status := some 200, content := some (Content.user r) }) := by
  simp only [UserResource.updateUser, hparse]
  rfl

/-! ## C1: Create then Get -/

/-- C1, as stated, fails: POST /users with a body that parses but supplies no
identifier stores the record under the empty identifier, and the Get with that
identifier signals Not-Found. -/
theorem createUser_then_findUser_empty_identifier :
    Sample.postNoId.ReadEntity
        { ID := Sample.postNoId.PathParameter "user-id", Name := "", Age := 0 }
      = Except.ok { ID := "", Name := "Melissa", Age := 30 } ∧
    (Sample.onUser "").PathParameter "user-id" = "" ∧
    ((main.u.createUser Sample.postNoId Response.fresh).1.findUser
        (Sample.onUser "") Response.fresh).2
      = { status := some 404, content := some (Content.text "User could not be found.") } :=
  ⟨rfl, rfl, by decide⟩

/-- C1, amended: for every store, every request whose body Create parses into a
record `r` with a non-empty identifier, a Get with the identifier of `r` right
after the Create answers 200 with the record `r`. -/
theorem createUser_then_findUser (u : UserResource) (create get : Request)
    (response : Response) (r : User)
    (hparse : create.ReadEntity
      { ID := create.PathParameter "user-id", Name := "", Age := 0 } = Except.ok r)
    (hid : r.ID ≠ "")
    (hget : get.PathParameter "user-id" = r.ID) :
    ((u.createUser create response).1.findUser get Response.fresh).2
      = { status := some 200, content := some (Content.user r) } := by
  rw [createUser_ok u create response r hparse, findUser_eq, hget]
  simp only [index_assign_self, if_neg hid]

/-- C1, amended, at POST /users with `id 1, name Melissa, age 30` on the empty
store, then GET /users/1. -/
theorem createUser_then_findUser_witness :
    ((main.u.createUser Sample.postMelissa Response.fresh).1.findUser
        (Sample.onUser "1") Response.fresh).2
      = { status := some 200,
          content := some (Content.user { ID := "1", Name := "Melissa", Age := 30 }) } :=
  createUser_then_findUser main.u Sample.postMelissa (Sample.onUser "1") Response.fresh
    { ID := "1", Name := "Melissa", Age := 30 } rfl (by decide) rfl

/-! ## C2: Update then Get -/

/-- C2, as stated, fails: PUT /users/1 with a body that parses but supplies no
identifier stores the record under the empty identifier (the path identifier
is not read), and the Get with that identifier signals Not-Found. -/
theorem updateUser_then_findUser_empty_identifier :
    Sample.putNoId.ReadEntity User.zero
      = Except.ok { ID := "", Name := "Melissa Raspberry", Age := 31 } ∧
    (Sample.onUser "").PathParameter "user-id" = "" ∧
    ((main.u.updateUser Sample.putNoId Response.fresh).1.findUser
        (Sample.onUser "") Response.fresh).2
      = { status := some 404, content := some (Content.text "User could not be found.") } :=
  ⟨rfl, rfl, by decide⟩

/-- C2, amended: for every store, also one that holds a record under the same
identifier, and every request whose body Update parses into a record `r` with a
non-empty identifier, a Get with the identifier of `r` right after the Update
answers 200 with the record `r`: its name and age are those of `r`. -/
theorem updateUser_then_findUser (u : UserResource) (update get : Request)
    (response : Response) (r : User)
    (hparse : update.ReadEntity User.zero = Except.ok r)
    (hid : r.ID ≠ "")
    (hget : get.PathParameter "user-id" = r.ID) :
    ((u.updateUser update response).1.findUser get Response.fresh).2
      = { status := some 200, content := some (Content.user r) } := by
  rw [updateUser_ok u update response r hparse, findUser_eq, hget]
  simp only [index_assign_self, if_neg hid]

/-- C2, amended, at PUT /users/1 with `id 1, name Melissa Raspberry, age 31` on
the store that holds Melissa, aged 30, under 1, then GET /users/1. -/
theorem updateUser_then_findUser_witness :
    (((main.u.createUser Sample.postMelissa Response.fresh).1.updateUser
        Sample.putRaspberry Response.fresh).1.findUser (Sample.onUser "1") Response.fresh).2
      = { status := some 200,
          content := some (Content.user { ID := "1", Name := "Melissa Raspberry", Age := 31 }) } :=
  updateUser_then_findUser (main.u.createUser Sample.postMelissa Response.fresh).1
    Sample.putRaspberry (Sample.onUser "1") Response.fresh
    { ID := "1", Name := "Melissa Raspberry", Age := 31 } rfl (by decide) rfl

/-! ## C3: Delete then Get -/

/-- C3: for every store and every identifier, stored or not, a Get with that
identifier right after the Delete signals Not-Found, status 404. -/
theorem removeUser_then_findUser (u : UserResource) (delete get : Request)
    (response : Response)
    (hget : get.PathParameter "user-id" = delete.PathParameter "user-id") :
    ((u.removeUser delete response).1.findUser get Response.fresh).2
      = { status := some 404, content := some (Content.text "User could not be found.") } := by
  rw [findUser_eq, hget]
  simp only [UserResource.removeUser, index_delete_self]
  rfl

/-- C3 at DELETE /users/1 on the store that holds Melissa under 1, then
GET /users/1. -/
theorem removeUser_then_findUser_witness :
    (((main.u.createUser Sample.postMelissa Response.fresh).1.removeUser
        (Sample.onUser "1") Response.fresh).1.findUser (Sample.onUser "1") Response.fresh).2
      = { status := some 404, content := some (Content.text "User could not be found.") } :=
  removeUser_then_findUser (main.u.createUser Sample.postMelissa Response.fresh).1
    (Sample.onUser "1") (Sample.onUser "1") Response.fresh rfl

/-! ## C4: Get -/

/-- C4, as stated, fails: after POST /users with a body without identifier the
store has an entry for the empty identifier, and yet the Get with the empty
identifier signals Not-Found. -/
theorem findUser_not_found_on_stored_entry :
    AList.lookup "" (main.u.createUser Sample.postNoId Response.fresh).1.users
      = some { ID := "", Name := "Melissa", Age := 30 } ∧
    (Sample.onUser "").PathParameter "user-id" = "" ∧
    ((main.u.createUser Sample.postNoId Response.fresh).1.findUser
        (Sample.onUser "") Response.fresh).2.status = some 404 := by
  decide

/-- C4, amended: Get never changes the store; it answers 200 with the record
stored under the identifier when that record has a non-empty identifier field,
and it signals Not-Found, status 404, exactly when the store has no entry for
the identifier or the record stored under it has an empty identifier field. -/
theorem findUser_spec (u : UserResource) (request : Request) (response : Response) :
    (u.findUser request response).1 = u ∧
    (∀ usr : User, AList.lookup (request.PathParameter "user-id") u.users = some usr →
      usr.ID ≠ "" →
      (u.findUser request response).2
        = { status := some 200, content := some (Content.user usr) }) ∧
    ((u.findUser request response).2
        = { status := some 404, content := some (Content.text "User could not be found.") } ↔
      (AList.lookup (request.PathParameter "user-id") u.users = none ∨
        ∃ usr : User, AList.lookup (request.PathParameter "user-id") u.users = some usr ∧
          usr.ID = "")) ∧
    ((u.findUser request response).2.status = some 404 ↔
      (AList.lookup (request.PathParameter "user-id") u.users = none ∨
        ∃ usr : User, AList.lookup (request.PathParameter "user-id") u.users = some usr ∧
          usr.ID = "")) := by
  rw [findUser_eq]
  unfold Store.index
  cases hl : AList.lookup (request.PathParameter "user-id") u.users with
  | none => simp [User.zero]
  | some stored =>
    by_cases hid : stored.ID = ""
    · simp [hid]
    · simp [hid]

/-! ## C5: List -/

/-- The values of a map, counted: a record occurs among the values as often as
there are keys under which it is stored. -/
theorem count_values (users : Store) (usr : User) :
    (users.entries.map (fun each => each.2)).count usr
      = users.keys.countP (fun key => decide (AList.lookup key users = some usr)) := by
  unfold AList.keys List.keys
  rw [List.count, List.countP_map, List.countP_map]
  apply List.countP_congr
  intro each heach
  have hstored : AList.lookup each.1 users = some each.2 :=
    List.mem_dlookup users.nodupKeys heach
  simp [hstored]

/-- In a store with the key/identifier agreement a record is stored under one
identifier at most. -/
theorem count_values_le_one (u : UserResource) (usr : User) (hu : u.KeysAreIdentifiers) :
    u.users.keys.countP (fun key => decide (AList.lookup key u.users = some usr)) ≤ 1 := by
  have hle : u.users.keys.countP (fun key => decide (AList.lookup key u.users = some usr))
      ≤ u.users.keys.countP (fun key => key == usr.ID) := by
    apply List.countP_mono_left
    intro key _ hkey
    have hstored : AList.lookup key u.users = some usr := of_decide_eq_true hkey
    simp [hu key usr hstored]
  exact le_trans hle (List.nodup_iff_count_le_one.mp u.users.keys_nodup usr.ID)

/-- C5: List always succeeds, status 200, and never changes the store; the
sequence it returns has as many elements as the store has entries, that is
distinct identifiers; every record occurs in it once for each identifier under
which it is stored, so every stored record occurs, and occurs exactly once
when every entry is stored under the identifier of its record; it is empty
when the store is empty.  This holds for every order in which the map is
walked. -/
theorem findAllUsers_spec (u : UserResource) (order : RangeOrder u.users)
    (request : Request) (response : Response) :
    ∃ list : List User,
      u.findAllUsers order request response
        = (u, { status := some 200, content := some (Content.users list) }) ∧
      list.length = u.users.entries.length ∧
      list.length = u.users.keys.toFinset.card ∧
      (∀ usr : User, list.count usr
        = u.users.keys.countP (fun key => decide (AList.lookup key u.users = some usr))) ∧
      (∀ (key : String) (usr : User), AList.lookup key u.users = some usr → usr ∈ list) ∧
      (u.KeysAreIdentifiers → ∀ usr ∈ list, list.count usr = 1) ∧
      (u.users = ∅ → list = []) := by
  have hcount : ∀ usr : User, (order.visit.map (fun each => each.2)).count usr
      = u.users.keys.countP (fun key => decide (AList.lookup key u.users = some usr)) := by
    intro usr
    rw [← count_values]
    exact (order.perm.map _).count_eq usr
  refine ⟨order.visit.map (fun each => each.2), ?_, ?_, ?_, hcount, ?_, ?_, ?_⟩
  · simp only [UserResource.findAllUsers, foldl_append_values, List.nil_append]
    rfl
  · rw [List.length_map, order.perm.length_eq]
  · rw [List.length_map, order.perm.length_eq, List.toFinset_card_of_nodup u.users.keys_nodup]
    simp [AList.keys, List.keys]
  · intro key usr hstored
    have hmem : (⟨key, usr⟩ : Sigma fun _ : String => User) ∈ u.users.entries :=
      List.of_mem_dlookup hstored
    exact List.mem_map.mpr ⟨⟨key, usr⟩, order.perm.symm.subset hmem, rfl⟩
  · intro hu usr hmem
    have hlower : 1 ≤ (order.visit.map (fun each => each.2)).count usr :=
      List.one_le_count_iff.mpr hmem
    have hupper := count_values_le_one u usr hu
    rw [← hcount usr] at hupper
    omega
  · intro hempty
    have hentries : u.users.entries = [] := by rw [hempty]; rfl
    have hperm := order.perm
    rw [hentries] at hperm
    simp [List.Perm.eq_nil hperm]

/-! ## C6: Delete of an absent identifier -/

/-- C6: when the store has no entry for the identifier, Delete leaves the store
as it was and the response as it was: it writes no status and no body. -/
theorem removeUser_absent (u : UserResource) (request : Request) (response : Response)
    (habsent : AList.lookup (request.PathParameter "user-id") u.users = none) :
    u.removeUser request response = (u, response) := by
  have hkeys : request.PathParameter "user-id" ∉ u.users.entries.keys :=
    List.dlookup_eq_none.mp habsent
  have herase : u.users.delete (request.PathParameter "user-id") = u.users :=
    AList.ext (List.kerase_of_not_mem_keys hkeys)
  simp only [UserResource.removeUser, herase]

/-- C6 at DELETE /users/2 on the store that holds Melissa under 1 only. -/
theorem removeUser_absent_witness :
    (main.u.createUser Sample.postMelissa Response.fresh).1.removeUser
        (Sample.onUser "2") Response.fresh
      = ((main.u.createUser Sample.postMelissa Response.fresh).1, Response.fresh) :=
  removeUser_absent (main.u.createUser Sample.postMelissa Response.fresh).1
    (Sample.onUser "2") Response.fresh (by decide)

/-! ## C7: parse failure -/

/-- C7: when the body does not parse, Update answers 404 and Create answers
500, each with the text of the error, and each leaves the store as it was. -/
theorem parse_failure (u : UserResource) (request : Request) (response : Response)
    (err : String) (hbody : request.body = Body.malformed err) :
    u.updateUser request response
      = (u, { status := some 404, content := some (Content.text err) }) ∧
    u.createUser request response
      = (u, { status := some 500, content := some (Content.text err) }) := by
  constructor
  · simp only [UserResource.updateUser, ReadEntity_malformed request _ err hbody]
    rfl
  · simp only [UserResource.createUser, ReadEntity_malformed request _ err hbody]
    rfl

/-- C7 at a body that does not parse, on the store that holds Melissa under 1. -/
theorem parse_failure_witness :
    (main.u.createUser Sample.postMelissa Response.fresh).1.updateUser
        Sample.postGarbage Response.fresh
      = ((main.u.createUser Sample.postMelissa Response.fresh).1,
          { status := some 404,
            content := some (Content.text "unexpected end of JSON input") }) ∧
    (main.u.createUser Sample.postMelissa Response.fresh).1.createUser
        Sample.postGarbage Response.fresh
      = ((main.u.createUser Sample.postMelissa Response.fresh).1,
          { status := some 500,
            content := some (Content.text "unexpected end of JSON input") }) :=
  parse_failure (main.u.createUser Sample.postMelissa Response.fresh).1
    Sample.postGarbage Response.fresh "unexpected end of JSON input" rfl

/-! ## C8: Create -/

/-- C8: on a body that parses, Create makes the record seeded with the path
identifier and overlaid with the fields the body supplies, so that its
identifier is the path identifier when the body supplies none; it answers 201
with that record, stores it under its own identifier, and leaves the entry of
every other identifier as it was. -/
theorem createUser_spec (u : UserResource) (request : Request) (response : Response)
    (id name : Option String) (age : Option Int)
    (hbody : request.body = Body.fields id name age) :
    ∃ r : User,
      r.ID = id.getD (request.PathParameter "user-id") ∧
      r.Name = name.getD "" ∧
      r.Age = age.getD 0 ∧
      (id = none → r.ID = request.PathParameter "user-id") ∧
      (u.createUser request response).2
        = { status := some 201, content := some (Content.user r) } ∧
      AList.lookup r.ID (u.createUser request response).1.users = some r ∧
      ∀ key : String, key ≠ r.ID →
        AList.lookup key (u.createUser request response).1.users
          = AList.lookup key u.users := by
  refine ⟨{ ID := id.getD (request.PathParameter "user-id"), Name := name.getD "",
            Age := age.getD 0 }, rfl, rfl, rfl, ?_, ?_, ?_, ?_⟩
  · intro hnone
    simp [hnone]
  · rw [createUser_ok u request response _ (ReadEntity_fields request _ id name age hbody)]
  · rw [createUser_ok u request response _ (ReadEntity_fields request _ id name age hbody)]
    exact AList.lookup_insert _
  · intro key hkey
    rw [createUser_ok u request response _ (ReadEntity_fields request _ id name age hbody)]
    exact AList.lookup_insert_ne hkey

/-- C8 at POST /users with `id 1, name Melissa, age 30` on the empty store. -/
theorem createUser_spec_witness :
    ∃ r : User,
      r.ID = (some "1").getD (Sample.postMelissa.PathParameter "user-id") ∧
      r.Name = (some "Melissa").getD "" ∧
      r.Age = (some (30 : Int)).getD 0 ∧
      (some "1" = none → r.ID = Sample.postMelissa.PathParameter "user-id") ∧
      (main.u.createUser Sample.postMelissa Response.fresh).2
        = { status := some 201, content := some (Content.user r) } ∧
      AList.lookup r.ID (main.u.createUser Sample.postMelissa Response.fresh).1.users = some r ∧
      ∀ key : String, key ≠ r.ID →
        AList.lookup key (main.u.createUser Sample.postMelissa Response.fresh).1.users
          = AList.lookup key main.u.users :=
  createUser_spec main.u Sample.postMelissa Response.fresh (some "1") (some "Melissa")
    (some 30) rfl

/-! ## C9: the API description contributor -/

/-- C9: the contributor sets the info to title UserService, description
Resource for managing Users, contact john / john@doe.rp / http://johndoe.org,
license MIT / http://mit.org, version 1.0.0, and the tags to the one tag users
with description Managing users; it leaves every other field as it was; its
result does not depend on the info and tags the document had; applying it
twice is applying it once. -/
theorem enrichSwaggerObject_spec {Rest : Type} (swo : spec.Swagger Rest) :
    (∃ (info : spec.Info) (contact : spec.ContactInfo) (license : spec.License),
      (enrichSwaggerObject swo).Info = some info ∧
      info.Title = "UserService" ∧
      info.Description = "Resource for managing Users" ∧
      info.Contact = some contact ∧
      contact.Name = "john" ∧ contact.Email = "john@doe.rp" ∧
      contact.URL = "http://johndoe.org" ∧
      info.License = some license ∧
      license.Name = "MIT" ∧ license.URL = "http://mit.org" ∧
      info.Version = "1.0.0") ∧
    (∃ tag : spec.Tag,
      (enrichSwaggerObject swo).Tags = [tag] ∧
      tag.Name = "users" ∧ tag.Description = "Managing users") ∧
    (enrichSwaggerObject swo).rest = swo.rest ∧
    (∀ (info : Option spec.Info) (tags : List spec.Tag),
      enrichSwaggerObject { swo with Info := info, Tags := tags } = enrichSwaggerObject swo) ∧
    enrichSwaggerObject (enrichSwaggerObject swo) = enrichSwaggerObject swo := by
  refine ⟨⟨_, _, _, rfl, rfl, rfl, rfl, rfl, rfl, rfl, rfl, rfl, rfl, rfl⟩,
    ⟨_, rfl, rfl, rfl⟩, rfl, fun _ _ => rfl, rfl⟩

/-! ## C10: the key/identifier agreement -/

/-- Assigning a record under its own identifier keeps the agreement. -/
theorem KeysAreIdentifiers_assign (u : UserResource) (usr : User)
    (hu : u.KeysAreIdentifiers) :
    UserResource.KeysAreIdentifiers { users := u.users.assign usr.ID usr } := by
  intro key stored hstored
  by_cases hkey : key = usr.ID
  · subst hkey
    simp only [Store.assign, AList.lookup_insert] at hstored
    exact (Option.some.inj hstored) ▸ rfl
  · simp only [Store.assign, AList.lookup_insert_ne hkey] at hstored
    exact hu key stored hstored

/-- Deleting a key keeps the agreement. -/
theorem KeysAreIdentifiers_delete (u : UserResource) (id : String)
    (hu : u.KeysAreIdentifiers) :
    UserResource.KeysAreIdentifiers { users := u.users.delete id } := by
  intro key stored hstored
  by_cases hkey : key = id
  · subst hkey
    simp [Store.delete, AList.lookup_erase] at hstored
  · simp only [Store.delete, AList.lookup_erase_ne hkey] at hstored
    exact hu key stored hstored

/-- Every handler keeps the agreement. -/
theorem KeysAreIdentifiers_handle (u : UserResource) (call : Call) (response : Response)
    (hu : u.KeysAreIdentifiers) : (u.handle call response).1.KeysAreIdentifiers := by
  cases call with
  | findAllUsers order request => exact hu
  | findUser request =>
    rw [UserResource.handle, findUser_eq]
    exact hu
  | updateUser request =>
    rw [UserResource.handle]
    cases hparse : request.ReadEntity User.zero with
    | error err =>
      simp only [UserResource.updateUser, hparse]
      exact hu
    | ok r =>
      rw [updateUser_ok u request response r hparse]
      exact KeysAreIdentifiers_assign u r hu
  | createUser request =>
    rw [UserResource.handle]
    cases hparse : request.ReadEntity
        { ID := request.PathParameter "user-id", Name := "", Age := 0 } with
    | error err =>
      simp only [UserResource.createUser, hparse]
      exact hu
    | ok r =>
      rw [createUser_ok u request response r hparse]
      exact KeysAreIdentifiers_assign u r hu
  | removeUser request =>
    exact KeysAreIdentifiers_delete u _ hu

/-- Serving any calls keeps the agreement. -/
theorem KeysAreIdentifiers_serve (calls : List Call) (u : UserResource)
    (hu : u.KeysAreIdentifiers) : (u.serve calls).KeysAreIdentifiers := by
  induction calls generalizing u with
  | nil => exact hu
  | cons call calls ih =>
    exact ih (u.handle call Response.fresh).1 (KeysAreIdentifiers_handle u call _ hu)

/-- C10: in every store reached from the empty store of `main` by serving any
finite sequence of List, Get, Update, Create and Delete requests, with any path
parameters and any bodies, every entry is stored under the identifier field of
its record. -/
theorem serve_keys_are_identifiers (calls : List Call) (key : String) (usr : User)
    (hstored : AList.lookup key (main.u.serve calls).users = some usr) :
    usr.ID = key := by
  have hstart : main.u.KeysAreIdentifiers := by
    intro key stored hempty
    simp [main.u] at hempty
  exact KeysAreIdentifiers_serve calls main.u hstart key usr hstored

/-- C10 after POST Melissa, PUT Melissa Raspberry, a POST without identifier, a
List, DELETE /users/2 and GET /users/1: the record under 1 has identifier 1. -/
theorem serve_keys_are_identifiers_witness :
    AList.lookup "1"
        (main.u.serve
          [Call.createUser Sample.postMelissa, Call.updateUser Sample.putRaspberry,
            Call.createUser Sample.postNoId, Call.findAllUsers RangeOrder.stored (Sample.onUser ""),
            Call.removeUser (Sample.onUser "2"), Call.findUser (Sample.onUser "1")]).users
      = some { ID := "1", Name := "Melissa Raspberry", Age := 31 } ∧
    ({ ID := "1", Name := "Melissa Raspberry", Age := 31 } : User).ID = "1" :=
  ⟨by decide,
    serve_keys_are_identifiers
      [Call.createUser Sample.postMelissa, Call.updateUser Sample.putRaspberry,
        Call.createUser Sample.postNoId, Call.findAllUsers RangeOrder.stored (Sample.onUser ""),
        Call.removeUser (Sample.onUser "2"), Call.findUser (Sample.onUser "1")]
      "1" { ID := "1", Name := "Melissa Raspberry", Age := 31 } (by decide)⟩

end UserService
